import Mathlib

/-!
Verification of the enkanetwork-go client library core: the generic
fetch-with-retry engine (`internal/core/fetcher`, which also serves the
`client/hsr` and fetcher-based `client/zzz` and `client/enka` paths), the
per-game retry loops of `client/genshin` and the older `client/zzz`, the
Retry-After header conversion, and the cache-backed request orchestration of
the resource methods (`client/enka`, game `GetProfile` methods).

The Go source is shallowly embedded: machine integers are `Int` with explicit
two's-complement wrapping where Go arithmetic can overflow, HTTP traffic is a
script of responses consumed by the loop models, the caller-supplied cache is
a reference association-list implementation of the `Cache` interface, and the
`context.Context` is the absolute time at which its Done channel closes.
-/

namespace EnkaNet

/-! ### Go int64 arithmetic and time units

Go durations are `int64` nanoseconds.  `wrap64` is two's-complement wrapping
(Go multiplication of typed integers wraps); `sat64` is the saturation that
`time.Time.Sub` applies on overflow. -/

def int64Max : Int := 9223372036854775807

def int64Min : Int := -9223372036854775808

def wrap64 (n : Int) : Int := (n + 2 ^ 63) % 2 ^ 64 - 2 ^ 63

def sat64 (n : Int) : Int := max int64Min (min int64Max n)

def nsPerSecond : Int := 1000000000

def nsPerMinute : Int := 60 * nsPerSecond

/-- `defaultRetryDelay = 5 * time.Second` from `internal/core/fetcher`. -/
def defaultRetryDelay : Int := 5 * nsPerSecond

/-- `maxRetries = 3` from `internal/core/fetcher` (also the per-game loops). -/
def maxRetries : Nat := 3

/-! ### strconv.Atoi -/

def charVal (c : Char) : Nat := c.toNat - 48

def digitsVal (l : List Char) : Nat := l.foldl (fun a c => a * 10 + charVal c) 0

/-- Model of Go `strconv.Atoi`: an optional single sign followed by one or
more decimal digits, the value required to fit in `int64`; anything else is a
parse error (`none`). -/
def goAtoi (s : String) : Option Int :=
  let cs := s.data
  let signDigits : Int × List Char :=
    match cs with
    | '+' :: rest => (1, rest)
    | '-' :: rest => (-1, rest)
    | _ => (1, cs)
  let ds := signDigits.2
  if ds.isEmpty then none
  else if ds.all Char.isDigit then
    let v : Int := signDigits.1 * (digitsVal ds : Int)
    if int64Min ≤ v ∧ v ≤ int64Max then some v else none
  else none

/-! ### time.ParseDuration

Used by the genshin and old zzz per-game retry loops, which parse the
`Retry-After` header by appending `"s"` and calling `time.ParseDuration`.
A duration literal is a sign followed by one or more `number[.fraction]unit`
terms.  Fractional contributions are computed here by exact truncating
division; Go computes them in float64, which agrees on all claim-relevant
inputs (integral values). -/

def durUnitScale (u : List Char) : Option Int :=
  if u = ['n', 's'] then some 1
  else if u = ['u', 's'] then some 1000
  else if u = ['µ', 's'] then some 1000
  else if u = ['μ', 's'] then some 1000
  else if u = ['m', 's'] then some 1000000
  else if u = ['s'] then some nsPerSecond
  else if u = ['m'] then some (60 * nsPerSecond)
  else if u = ['h'] then some (3600 * nsPerSecond)
  else none

def notUnitChar (c : Char) : Bool := c.isDigit || c = '.'

def durLoop : Nat → List Char → Int → Option Int
  | 0, _, _ => none
  | _ + 1, [], acc => some acc
  | f + 1, l, acc =>
    let intDigits := l.takeWhile Char.isDigit
    let l1 := l.dropWhile Char.isDigit
    let hasDot : Bool := l1.head? = some '.'
    let l2 := if hasDot then l1.tail else l1
    let fracDigits := if hasDot then l2.takeWhile Char.isDigit else []
    let l3 := if hasDot then l2.dropWhile Char.isDigit else l1
    if intDigits.isEmpty ∧ fracDigits.isEmpty then none
    else
      let us := l3.takeWhile (fun c => ¬ notUnitChar c)
      let l4 := l3.dropWhile (fun c => ¬ notUnitChar c)
      match durUnitScale us with
      | none => none
      | some scale =>
        let whole : Int := (digitsVal intDigits : Int) * scale
        let frac : Int :=
          ((digitsVal fracDigits : Nat) * scale.toNat / 10 ^ fracDigits.length : Nat)
        durLoop f l4 (acc + whole + frac)

/-- Model of Go `time.ParseDuration`. -/
def goParseDuration (s : String) : Option Int :=
  let cs := s.data
  let negRest : Bool × List Char :=
    match cs with
    | '-' :: rest => (true, rest)
    | '+' :: rest => (false, rest)
    | _ => (false, cs)
  let body := negRest.2
  if body = ['0'] then some 0
  else if body.isEmpty then none
  else
    match durLoop (body.length + 1) body 0 with
    | none => none
    | some v => if v ≤ int64Max then some (if negRest.1 then -v else v) else none

/-! ### time.Parse with the RFC1123 layout "Mon, 02 Jan 2006 15:04:05 MST"

Used by `parseRetryAfter` in `internal/core/fetcher`.  Letter zone
abbreviations are all resolved to offset 0, as Go does for abbreviations that
do not name the local zone; numeric `+hhmm` offsets are outside this model
(treated as a parse failure, which no claim exercises). -/

def take3 (l : List Char) : Option (String × List Char) :=
  match l with
  | a :: b :: c :: rest => some (String.mk [a, b, c], rest)
  | _ => none

def expectChar (c : Char) (l : List Char) : Option (List Char) :=
  match l with
  | x :: rest => if x = c then some rest else none
  | [] => none

def parse2Digits (l : List Char) : Option (Nat × List Char) :=
  match l with
  | a :: b :: rest =>
    if a.isDigit ∧ b.isDigit then some (charVal a * 10 + charVal b, rest) else none
  | _ => none

def parse4Digits (l : List Char) : Option (Nat × List Char) :=
  match l with
  | a :: b :: c :: d :: rest =>
    if a.isDigit ∧ b.isDigit ∧ c.isDigit ∧ d.isDigit then
      some (((charVal a * 10 + charVal b) * 10 + charVal c) * 10 + charVal d, rest)
    else none
  | _ => none

def shortDayNames : List String := ["Sun", "Mon", "Tue", "Wed", "Thu", "Fri", "Sat"]

def shortMonthNames : List String :=
  ["Jan", "Feb", "Mar", "Apr", "May", "Jun", "Jul", "Aug", "Sep", "Oct", "Nov", "Dec"]

def monthIndex (m : String) : Option Nat :=
  (shortMonthNames.findIdx? (fun x => x = m)).map (· + 1)

def isUpperAlpha (c : Char) : Bool := 'A' ≤ c && c ≤ 'Z'

def zoneOK (z : String) : Bool :=
  z == "UT" || z == "ChST" || z == "MeST" || z == "WITA" ||
    (z.data.all isUpperAlpha &&
      (z.length == 3 || ((z.length == 4 || z.length == 5) && z.data.getLast? == some 'T')))

def isLeapYear (y : Nat) : Bool := y % 4 == 0 && (y % 100 != 0 || y % 400 == 0)

def daysInMonth (y m : Nat) : Nat :=
  if m = 2 then (if isLeapYear y then 29 else 28)
  else if m = 4 ∨ m = 6 ∨ m = 9 ∨ m = 11 then 30
  else 31

/-- Days from the Unix epoch to the given civil date (proleptic Gregorian). -/
def daysFromCivil (year month day : Nat) : Int :=
  let y : Int := if month ≤ 2 then (year : Int) - 1 else year
  let era : Int := Int.fdiv y 400
  let yoe : Nat := (y - era * 400).toNat
  let mp : Nat := if month > 2 then month - 3 else month + 9
  let doy : Nat := (153 * mp + 2) / 5 + day - 1
  let doe : Nat := yoe * 365 + yoe / 4 - yoe / 100 + doy
  era * 146097 + (doe : Int) - 719468

/-- Parses the leading `"Mon, "` of the RFC1123 layout, requiring a valid
weekday name (as in Go, it is not checked against the date). -/
def parseWeekDay (l : List Char) : Option (List Char) :=
  match take3 l with
  | none => none
  | some (dayName, r1) =>
    if shortDayNames.contains dayName then
      match expectChar ',' r1 with
      | none => none
      | some r2 => expectChar ' ' r2
    else none

/-- Parses `"02 Jan 2006 "` of the RFC1123 layout into (day, month, year). -/
def parseCivilDate (l : List Char) : Option (Nat × Nat × Nat × List Char) :=
  match parse2Digits l with
  | none => none
  | some (day, r1) =>
    match expectChar ' ' r1 with
    | none => none
    | some r2 =>
      match take3 r2 with
      | none => none
      | some (monName, r3) =>
        match monthIndex monName with
        | none => none
        | some mon =>
          match expectChar ' ' r3 with
          | none => none
          | some r4 =>
            match parse4Digits r4 with
            | none => none
            | some (year, r5) =>
              match expectChar ' ' r5 with
              | none => none
              | some r6 => some (day, mon, year, r6)

/-- Parses `"15:04:05"` of the RFC1123 layout into (hour, minute, second). -/
def parseClock (l : List Char) : Option (Nat × Nat × Nat × List Char) :=
  match parse2Digits l with
  | none => none
  | some (hh, r1) =>
    match expectChar ':' r1 with
    | none => none
    | some r2 =>
      match parse2Digits r2 with
      | none => none
      | some (mm, r3) =>
        match expectChar ':' r3 with
        | none => none
        | some r4 =>
          match parse2Digits r4 with
          | none => none
          | some (ss, r5) => some (hh, mm, ss, r5)

/-- Model of `time.Parse(time.RFC1123, s)`, returning the parsed instant as
epoch nanoseconds. -/
def rfc1123Epoch (s : String) : Option Int :=
  match parseWeekDay s.data with
  | none => none
  | some r1 =>
    match parseCivilDate r1 with
    | none => none
    | some (day, mon, year, r2) =>
      match parseClock r2 with
      | none => none
      | some (hh, mm, ss, r3) =>
        match expectChar ' ' r3 with
        | none => none
        | some r4 =>
          let zone := String.mk r4
          if zoneOK zone ∧ 1 ≤ day ∧ day ≤ daysInMonth year mon ∧ hh ≤ 23 ∧ mm ≤ 59 ∧ ss ≤ 59
          then
            some ((daysFromCivil year mon day * 86400 +
              ((hh * 3600 + mm * 60 + ss : Nat) : Int)) * nsPerSecond)
          else none

/-! ### The three Retry-After conversions found in the source -/

/-- `parseRetryAfter` from `internal/core/fetcher`: integer seconds first
(`strconv.Atoi`, the resulting Go multiplication `time.Duration(seconds) *
time.Second` wraps on overflow), then an RFC1123 date whose delta from `now`
is clamped to zero when negative, then the fixed 5-second default. -/
def parseRetryAfter (retryAfter : String) (now : Int) : Int :=
  match goAtoi retryAfter with
  | some seconds => wrap64 (seconds * nsPerSecond)
  | none =>
    match rfc1123Epoch retryAfter with
    | some date =>
      let delay := sat64 (date - now)
      if delay < 0 then 0 else delay
    | none => defaultRetryDelay

/-- The inline conversion of the genshin `fetchProfileWithRetry` loop:
if the header is non-empty, `time.ParseDuration(retryAfter + "s")`, falling
back to 5 seconds when that parse fails; 5 seconds when the header is absent.
(The hsr client has no such inline conversion: it delegates to the generic
fetcher and hence to `parseRetryAfter`.) -/
def genshinRetryDelay (retryAfter : String) : Int :=
  if retryAfter ≠ "" then
    match goParseDuration (retryAfter ++ "s") with
    | some d => d
    | none => 5 * nsPerSecond
  else 5 * nsPerSecond

/-- The inline conversion of the zzz `fetchProfileWithRetry` loop: the
`time.ParseDuration(retryAfter + "s")` error is discarded, so an unparsable
non-empty header leaves the zero duration; only an absent header yields the
5-second default. -/
def zzzWaitTime (retryAfter : String) : Int :=
  if retryAfter ≠ "" then
    match goParseDuration (retryAfter ++ "s") with
    | some d => d
    | none => 0
  else 5 * nsPerSecond

/-! ### Error taxonomy

One inductive for the classified error values of `internal/core/errors`,
`internal/common` and the per-client error files; Go compares them by
identity (`err == errors.ErrPlayerNotFound`), which is constructor equality
here.  `transportFailure` stands for any network-level error returned by
`http.Client.Do` (including a `Do` that fails because the context is already
cancelled); `ctxCanceled` is `ctx.Err()` returned from a backoff select. -/

inductive FetchError where
  | invalidUIDFormat
  | playerNotFound
  | serverMaintenance
  | serverError
  | serviceUnavailable
  | rateLimited
  | unexpectedStatus (code : Nat)
  | decodeFailure
  | transportFailure
  | ctxCanceled
  | userNotFound
  | hoyoAccountNotFound
  | hoyoAccountBuildsNotFound
  | invalidUsername
  | invalidHoyoHash
  deriving DecidableEq, Repr

/-! ### HTTP environment

A call's network environment is a script of `Do` results consumed in order.
`retryAfter` is the `Retry-After` header, `""` when absent (Go `Header.Get`
returns `""` then).  `body` is the result of JSON-decoding the response body
into the target type: `none` models a body the decoder rejects. -/

structure HTTPResponse (T : Type) where
  statusCode : Nat
  retryAfter : String
  body : Option T
  deriving DecidableEq, Repr

inductive DoResult (T : Type) where
  | transportErr
  | success (r : HTTPResponse T)
  deriving DecidableEq, Repr

/-- `context.Context`: the absolute time at which `ctx.Done()` closes, if it
ever does. -/
structure Ctx where
  cancelAt : Option Int
  deriving DecidableEq, Repr

/-- The context is done at time `t`. -/
def Ctx.doneAt (ctx : Ctx) (t : Int) : Bool :=
  match ctx.cancelAt with
  | some c => c ≤ t
  | none => false

/-- In `select { case <-time.After(delay): ...; case <-ctx.Done(): ... }`
started at `now`, the `ctx.Done()` arm is chosen: the cancellation fires
strictly before the timer (an exact tie is a Go scheduling race, resolved
here in favour of the timer). -/
def Ctx.winsWait (ctx : Ctx) (now delay : Int) : Bool :=
  match ctx.cancelAt with
  | some c => c < now + delay
  | none => false

def Ctx.none : Ctx := ⟨Option.none⟩

deriving instance DecidableEq for Except

/-- Observables of one fetch-with-retry call: the returned value or error,
the number of `Do` calls that reached the network, the backoff waits that
ran to completion (in order, as passed to the timer), and the absolute time
at which the call returned. -/
structure FetchOutcome (T : Type) where
  result : Except FetchError T
  attempts : Nat
  waits : List Int
  finish : Int
  deriving DecidableEq, Repr

/-! ### Fetcher.FetchWithRetry (internal/core/fetcher)

`for attempt := range maxRetries { ... }` translated with `rem` = the number
of loop iterations still permitted (`rem = maxRetries - attempt`); the
recursion consumes one script entry per iteration.  On a transient status
(429/500/503) before the final permitted attempt the loop computes a delay —
from the `Retry-After` header for 429/503, the fixed default for 500 — and
waits in a select against `ctx.Done()`; on the final permitted attempt it
falls through and the loop exit returns `ErrRateLimited`.  The `case 500` /
`case 503` arms of the non-transient switch in the source are unreachable
(those statuses are consumed by the transient branch) and so have no
counterpart here.  A timer with a non-positive delay fires immediately, so
the clock advances by `max delay 0`. -/
def fetchDelay {T : Type} (r : HTTPResponse T) (now : Int) : Int :=
  if (r.statusCode = 429 ∨ r.statusCode = 503) ∧ r.retryAfter ≠ "" then
    parseRetryAfter r.retryAfter now
  else defaultRetryDelay

def fetchLoop {T : Type} (ctx : Ctx) : List (DoResult T) → Int → Nat → FetchOutcome T
  | script, now, rem =>
    if rem = 0 then ⟨.error .rateLimited, 0, [], now⟩
    else if ctx.doneAt now then ⟨.error .transportFailure, 0, [], now⟩
    else
      match script with
      | [] => ⟨.error .transportFailure, 0, [], now⟩
      | .transportErr :: _ => ⟨.error .transportFailure, 1, [], now⟩
      | .success r :: rest =>
        if r.statusCode = 200 then
          match r.body with
          | some t => ⟨.ok t, 1, [], now⟩
          | none => ⟨.error .decodeFailure, 1, [], now⟩
        else if r.statusCode = 429 ∨ r.statusCode = 500 ∨ r.statusCode = 503 then
          if 1 < rem then
            let delay := fetchDelay r now
            if ctx.winsWait now delay then
              ⟨.error .ctxCanceled, 1, [], max now (ctx.cancelAt.getD now)⟩
            else
              let o := fetchLoop ctx rest (now + max delay 0) (rem - 1)
              ⟨o.result, o.attempts + 1, delay :: o.waits, o.finish⟩
          else
            let o := fetchLoop ctx rest now (rem - 1)
            ⟨o.result, o.attempts + 1, o.waits, o.finish⟩
        else
          match r.statusCode with
          | 400 => ⟨.error .invalidUIDFormat, 1, [], now⟩
          | 404 => ⟨.error .playerNotFound, 1, [], now⟩
          | 424 => ⟨.error .serverMaintenance, 1, [], now⟩
          | _ => ⟨.error (.unexpectedStatus r.statusCode), 1, [], now⟩

/-- `Fetcher.FetchWithRetry` entry point. -/
def FetchWithRetry {T : Type} (ctx : Ctx) (script : List (DoResult T)) (now : Int) :
    FetchOutcome T :=
  fetchLoop ctx script now maxRetries

/-! ### The genshin per-game retry loop (client/genshin)

The hsr client has no per-game loop: it delegates to `Fetcher.FetchWithRetry`
above.  This loop is the genshin client's own `fetchProfileWithRetry`.

`for attempt := 0; attempt < maxRetries; attempt++`.  Only 429 is retried;
400/404/424/500/503 return their classified errors immediately.  On every
429 — including the one on the final iteration — the loop computes
`genshinRetryDelay` and waits in a select against `ctx.Done()`; exhausting
the loop returns `fmt.Errorf("rate limited: %w", ErrRateLimited)`, still the
`rateLimited` kind. -/
def genshinFetchLoop {T : Type} (ctx : Ctx) : List (DoResult T) → Int → Nat → FetchOutcome T
  | script, now, rem =>
    if rem = 0 then ⟨.error .rateLimited, 0, [], now⟩
    else if ctx.doneAt now then ⟨.error .transportFailure, 0, [], now⟩
    else
      match script with
      | [] => ⟨.error .transportFailure, 0, [], now⟩
      | .transportErr :: _ => ⟨.error .transportFailure, 1, [], now⟩
      | .success r :: rest =>
        if r.statusCode = 200 then
          match r.body with
          | some t => ⟨.ok t, 1, [], now⟩
          | none => ⟨.error .decodeFailure, 1, [], now⟩
        else if r.statusCode = 429 then
          let delay := genshinRetryDelay r.retryAfter
          if ctx.winsWait now delay then
            ⟨.error .ctxCanceled, 1, [], max now (ctx.cancelAt.getD now)⟩
          else
            let o := genshinFetchLoop ctx rest (now + max delay 0) (rem - 1)
            ⟨o.result, o.attempts + 1, delay :: o.waits, o.finish⟩
        else
          match r.statusCode with
          | 400 => ⟨.error .invalidUIDFormat, 1, [], now⟩
          | 404 => ⟨.error .playerNotFound, 1, [], now⟩
          | 424 => ⟨.error .serverMaintenance, 1, [], now⟩
          | 500 => ⟨.error .serverError, 1, [], now⟩
          | 503 => ⟨.error .serviceUnavailable, 1, [], now⟩
          | _ => ⟨.error (.unexpectedStatus r.statusCode), 1, [], now⟩

/-- `fetchProfileWithRetry` of client/genshin. -/
def genshinFetchProfileWithRetry {T : Type} (ctx : Ctx) (script : List (DoResult T))
    (now : Int) : FetchOutcome T :=
  genshinFetchLoop ctx script now maxRetries

/-! ### The zzz per-game retry loop (client/zzz)

An unconditional `for` loop with a `retries` counter checked *before* being
incremented (`if retries >= maxRetries { return ErrRateLimited }`), so an
all-429 run makes `maxRetries + 1 = 4` network attempts.  The backoff is a
bare `time.Sleep(waitTime)` that does not observe `ctx.Done()`; `time.Sleep`
returns immediately for non-positive durations.  `rem` below is
`maxRetries - retries`, the number of sleeps still permitted. -/
def zzzFetchLoop {T : Type} (ctx : Ctx) : List (DoResult T) → Int → Nat → FetchOutcome T
  | script, now, rem =>
    if ctx.doneAt now then ⟨.error .transportFailure, 0, [], now⟩
    else
      match script with
      | [] => ⟨.error .transportFailure, 0, [], now⟩
      | .transportErr :: _ => ⟨.error .transportFailure, 1, [], now⟩
      | .success r :: rest =>
        if r.statusCode = 200 then
          match r.body with
          | some t => ⟨.ok t, 1, [], now⟩
          | none => ⟨.error .decodeFailure, 1, [], now⟩
        else if r.statusCode = 429 then
          if rem = 0 then ⟨.error .rateLimited, 1, [], now⟩
          else
            let slept := max (zzzWaitTime r.retryAfter) 0
            let o := zzzFetchLoop ctx rest (now + slept) (rem - 1)
            ⟨o.result, o.attempts + 1, slept :: o.waits, o.finish⟩
        else
          match r.statusCode with
          | 400 => ⟨.error .invalidUIDFormat, 1, [], now⟩
          | 404 => ⟨.error .playerNotFound, 1, [], now⟩
          | 424 => ⟨.error .serverMaintenance, 1, [], now⟩
          | 500 => ⟨.error .serverError, 1, [], now⟩
          | 503 => ⟨.error .serviceUnavailable, 1, [], now⟩
          | _ => ⟨.error (.unexpectedStatus r.statusCode), 1, [], now⟩

/-- `fetchProfileWithRetry` of client/zzz. -/
def zzzFetchProfileWithRetry {T : Type} (ctx : Ctx) (script : List (DoResult T))
    (now : Int) : FetchOutcome T :=
  zzzFetchLoop ctx script now maxRetries

/-! ### Payload types

Only the fields the orchestration inspects are kept: the embedded `TTL`
(Go `int`, seconds) of the game profiles, plus an opaque payload so distinct
response bodies are distinct values. -/

structure Profile where
  ttl : Int
  pdata : Nat
  deriving DecidableEq, Repr

structure ZProfile where
  ttl : Int
  zdata : Nat
  deriving DecidableEq, Repr

structure Owner where
  odata : Nat
  deriving DecidableEq, Repr

structure Hoyo where
  hdata : Nat
  deriving DecidableEq, Repr

structure Hoyos where
  hsdata : Nat
  deriving DecidableEq, Repr

structure AvatarBuildsMap where
  bdata : Nat
  deriving DecidableEq, Repr

/-- The dynamic type of an `any` stored in the cache.  Go distinguishes the
pointer type `*X` from the value type `X` in a type assertion, so both get a
constructor where the source uses both (`Hoyos` and `AvatarBuildsMap`). -/
inductive CacheValue where
  | genshinProfilePtr (p : Profile)
  | zzzProfilePtr (p : ZProfile)
  | ownerPtr (o : Owner)
  | hoyoPtr (h : Hoyo)
  | hoyosPtr (h : Hoyos)
  | hoyosVal (h : Hoyos)
  | buildsPtr (b : AvatarBuildsMap)
  | buildsVal (b : AvatarBuildsMap)
  deriving DecidableEq, Repr

/-! ### A reference implementation of the Cache interface

`Get` treats an entry at or past its expiry as absent; `Set` stores the value
under the key with expiry `now + expiration`, replacing any previous entry. -/

structure MemCache where
  entries : List (String × CacheValue × Int)
  deriving DecidableEq, Repr

def MemCache.get (c : MemCache) (key : String) (now : Int) : Option CacheValue :=
  match c.entries.find? (fun e => e.1 == key) with
  | some e => if now < e.2.2 then some e.2.1 else Option.none
  | Option.none => Option.none

def MemCache.set (c : MemCache) (key : String) (v : CacheValue) (expiration now : Int) :
    MemCache :=
  ⟨(key, v, now + expiration) :: c.entries.filter (fun e => e.1 != key)⟩

def MemCache.empty : MemCache := ⟨[]⟩

/-! ### Identifier validation and cache-key derivation -/

/-- `core.IsValidUID`: exactly 9 characters, all ASCII digits.  (Go checks
the byte length and ranges over runes; the two agree because a digit rune is
one byte.) -/
def IsValidUID (uid : String) : Bool :=
  uid.length == 9 && uid.data.all Char.isDigit

/-- `zzz.isValidUID`: 9 or 10 characters, all ASCII digits. -/
def zzzIsValidUID (uid : String) : Bool :=
  (uid.length == 9 || uid.length == 10) && uid.data.all Char.isDigit

def genshinProfileKey (uid : String) : String := "genshin_" ++ uid

def genshinPlayerInfoKey (uid : String) : String := "genshin_" ++ uid ++ "_info"

def hsrProfileKey (uid : String) : String := "hsr_" ++ uid

def zzzProfileKey (uid : String) : String := "zzz_" ++ uid

def userProfileKey (username : String) : String := "user_" ++ username

def userHoyosKey (username : String) : String := "user_" ++ username ++ "_hoyos"

def userHoyoKey (username hoyoHash : String) : String :=
  "user_" ++ username ++ "_hoyos_" ++ hoyoHash

def userBuildsKey (username hoyoHash : String) : String :=
  "user_" ++ username ++ "_hoyos_" ++ hoyoHash ++ "_builds"

/-! ### Cache-backed request orchestration -/

/-- Observables of one resource-method call: the returned value or error,
the cache after the call (`none` when no cache is configured), and the
counts of `Cache.Get` calls, `Cache.Set` calls and network attempts. -/
structure MethodOutcome (R : Type) where
  result : Except FetchError R
  cache : Option MemCache
  gets : Nat
  sets : Nat
  netCalls : Nat
  deriving DecidableEq, Repr

/-- The error translation of the enka resource methods:
`if err == errors.ErrPlayerNotFound { return nil, <notFound> }`. -/
def translate404 (notFound e : FetchError) : FetchError :=
  if e = .playerNotFound then notFound else e

/-- `genshin.Client.GetProfile` (client/genshin): UID validation, cache
lookup under `"genshin_" + uid` asserting `*Profile`, fetch through the
genshin retry loop on miss, store with expiration
`time.Duration(profile.TTL) * time.Second` on success. -/
def genshinGetProfile (cache : Option MemCache) (ctx : Ctx)
    (script : List (DoResult Profile)) (now : Int) (uid : String) : MethodOutcome Profile :=
  if ¬ IsValidUID uid then ⟨.error .invalidUIDFormat, cache, 0, 0, 0⟩
  else
    let key := genshinProfileKey uid
    match cache with
    | Option.none =>
      let o := genshinFetchProfileWithRetry ctx script now
      match o.result with
      | .ok p => ⟨.ok p, Option.none, 0, 0, o.attempts⟩
      | .error e => ⟨.error e, Option.none, 0, 0, o.attempts⟩
    | some mc =>
      match mc.get key now with
      | some (CacheValue.genshinProfilePtr p) => ⟨.ok p, some mc, 1, 0, 0⟩
      | _ =>
        let o := genshinFetchProfileWithRetry ctx script now
        match o.result with
        | .ok p =>
          ⟨.ok p,
            some (mc.set key (.genshinProfilePtr p) (wrap64 (p.ttl * nsPerSecond)) o.finish),
            1, 1, o.attempts⟩
        | .error e => ⟨.error e, some mc, 1, 0, o.attempts⟩

/-- `zzz.Client.GetProfile` (client/zzz, fetcher-based version): UID
validation (9 or 10 digits), cache lookup under `"zzz_" + uid` asserting
`*Profile`, `Fetcher.FetchWithRetry` on miss, TTL-based store on success. -/
def zzzGetProfile (cache : Option MemCache) (ctx : Ctx)
    (script : List (DoResult ZProfile)) (now : Int) (uid : String) : MethodOutcome ZProfile :=
  if ¬ zzzIsValidUID uid then ⟨.error .invalidUIDFormat, cache, 0, 0, 0⟩
  else
    let key := zzzProfileKey uid
    match cache with
    | Option.none =>
      let o := FetchWithRetry ctx script now
      match o.result with
      | .ok p => ⟨.ok p, Option.none, 0, 0, o.attempts⟩
      | .error e => ⟨.error e, Option.none, 0, 0, o.attempts⟩
    | some mc =>
      match mc.get key now with
      | some (CacheValue.zzzProfilePtr p) => ⟨.ok p, some mc, 1, 0, 0⟩
      | _ =>
        let o := FetchWithRetry ctx script now
        match o.result with
        | .ok p =>
          ⟨.ok p,
            some (mc.set key (.zzzProfilePtr p) (wrap64 (p.ttl * nsPerSecond)) o.finish),
            1, 1, o.attempts⟩
        | .error e => ⟨.error e, some mc, 1, 0, o.attempts⟩

/-- `enka.Client.GetUserProfile`: empty-username guard, cache lookup under
`"user_" + username` asserting `*Owner`, fetch on miss with 404 translated
to `ErrUserNotFound`, store of the `*Owner` for a fixed 5 minutes. -/
def enkaGetUserProfile (cache : Option MemCache) (ctx : Ctx)
    (script : List (DoResult Owner)) (now : Int) (username : String) : MethodOutcome Owner :=
  if username = "" then ⟨.error .invalidUsername, cache, 0, 0, 0⟩
  else
    let key := userProfileKey username
    match cache with
    | Option.none =>
      let o := FetchWithRetry ctx script now
      match o.result with
      | .ok owner => ⟨.ok owner, Option.none, 0, 0, o.attempts⟩
      | .error e => ⟨.error (translate404 .userNotFound e), Option.none, 0, 0, o.attempts⟩
    | some mc =>
      match mc.get key now with
      | some (CacheValue.ownerPtr owner) => ⟨.ok owner, some mc, 1, 0, 0⟩
      | _ =>
        let o := FetchWithRetry ctx script now
        match o.result with
        | .ok owner =>
          ⟨.ok owner, some (mc.set key (.ownerPtr owner) (5 * nsPerMinute) o.finish),
            1, 1, o.attempts⟩
        | .error e => ⟨.error (translate404 .userNotFound e), some mc, 1, 0, o.attempts⟩

/-- `enka.Client.GetUserProfileHoyos`: the cache-hit path asserts the value
type `Hoyos`, but the success path stores `hoyos`, the `*Hoyos` returned by
the fetcher — hence `hoyosVal` on the lookup and `hoyosPtr` on the store,
mirroring the Go dynamic types. -/
def enkaGetUserProfileHoyos (cache : Option MemCache) (ctx : Ctx)
    (script : List (DoResult Hoyos)) (now : Int) (username : String) : MethodOutcome Hoyos :=
  if username = "" then ⟨.error .invalidUsername, cache, 0, 0, 0⟩
  else
    let key := userHoyosKey username
    match cache with
    | Option.none =>
      let o := FetchWithRetry ctx script now
      match o.result with
      | .ok hoyos => ⟨.ok hoyos, Option.none, 0, 0, o.attempts⟩
      | .error e => ⟨.error (translate404 .userNotFound e), Option.none, 0, 0, o.attempts⟩
    | some mc =>
      match mc.get key now with
      | some (CacheValue.hoyosVal hoyos) => ⟨.ok hoyos, some mc, 1, 0, 0⟩
      | _ =>
        let o := FetchWithRetry ctx script now
        match o.result with
        | .ok hoyos =>
          ⟨.ok hoyos, some (mc.set key (.hoyosPtr hoyos) (5 * nsPerMinute) o.finish),
            1, 1, o.attempts⟩
        | .error e => ⟨.error (translate404 .userNotFound e), some mc, 1, 0, o.attempts⟩

/-- `enka.Client.GetUserProfileHoyo`: username then hoyo-hash guards, cache
lookup asserting `*Hoyo`, fetch on miss with 404 translated to
`ErrHoyoAccountNotFound`, store of the `*Hoyo` for 5 minutes. -/
def enkaGetUserProfileHoyo (cache : Option MemCache) (ctx : Ctx)
    (script : List (DoResult Hoyo)) (now : Int) (username hoyoHash : String) :
    MethodOutcome Hoyo :=
  if username = "" then ⟨.error .invalidUsername, cache, 0, 0, 0⟩
  else if hoyoHash = "" then ⟨.error .invalidHoyoHash, cache, 0, 0, 0⟩
  else
    let key := userHoyoKey username hoyoHash
    match cache with
    | Option.none =>
      let o := FetchWithRetry ctx script now
      match o.result with
      | .ok hoyo => ⟨.ok hoyo, Option.none, 0, 0, o.attempts⟩
      | .error e =>
        ⟨.error (translate404 .hoyoAccountNotFound e), Option.none, 0, 0, o.attempts⟩
    | some mc =>
      match mc.get key now with
      | some (CacheValue.hoyoPtr hoyo) => ⟨.ok hoyo, some mc, 1, 0, 0⟩
      | _ =>
        let o := FetchWithRetry ctx script now
        match o.result with
        | .ok hoyo =>
          ⟨.ok hoyo, some (mc.set key (.hoyoPtr hoyo) (5 * nsPerMinute) o.finish),
            1, 1, o.attempts⟩
        | .error e =>
          ⟨.error (translate404 .hoyoAccountNotFound e), some mc, 1, 0, o.attempts⟩

/-- `enka.Client.GetUserProfileHoyoBuilds`: like `GetUserProfileHoyos`, the
hit path asserts the value type `AvatarBuildsMap` while the success path
stores the `*AvatarBuildsMap` from the fetcher; 404 becomes
`ErrHoyoAccountBuildsNotFound`. -/
def enkaGetUserProfileHoyoBuilds (cache : Option MemCache) (ctx : Ctx)
    (script : List (DoResult AvatarBuildsMap)) (now : Int) (username hoyoHash : String) :
    MethodOutcome AvatarBuildsMap :=
  if username = "" then ⟨.error .invalidUsername, cache, 0, 0, 0⟩
  else if hoyoHash = "" then ⟨.error .invalidHoyoHash, cache, 0, 0, 0⟩
  else
    let key := userBuildsKey username hoyoHash
    match cache with
    | Option.none =>
      let o := FetchWithRetry ctx script now
      match o.result with
      | .ok builds => ⟨.ok builds, Option.none, 0, 0, o.attempts⟩
      | .error e =>
        ⟨.error (translate404 .hoyoAccountBuildsNotFound e), Option.none, 0, 0, o.attempts⟩
    | some mc =>
      match mc.get key now with
      | some (CacheValue.buildsVal builds) => ⟨.ok builds, some mc, 1, 0, 0⟩
      | _ =>
        let o := FetchWithRetry ctx script now
        match o.result with
        | .ok builds =>
          ⟨.ok builds, some (mc.set key (.buildsPtr builds) (5 * nsPerMinute) o.finish),
            1, 1, o.attempts⟩
        | .error e =>
          ⟨.error (translate404 .hoyoAccountBuildsNotFound e), some mc, 1, 0, o.attempts⟩

/-! ## General lemmas -/

@[simp]
theorem ctxNone_doneAt (t : Int) : Ctx.none.doneAt t = false := rfl

@[simp]
theorem ctxNone_winsWait (now delay : Int) : Ctx.none.winsWait now delay = false := rfl

/-- An exhausted attempt budget returns `ErrRateLimited` whatever is left of
the script. -/
@[simp]
theorem fetchLoop_zero {T : Type} (ctx : Ctx) (script : List (DoResult T)) (now : Int) :
    fetchLoop ctx script now 0 = ⟨.error .rateLimited, 0, [], now⟩ := by
  rcases script with _ | ⟨_ | r, rest⟩ <;> simp [fetchLoop]

/-- The genshin loop exit likewise returns its wrapped rate-limited
error once the budget is exhausted. -/
@[simp]
theorem genshinFetchLoop_zero {T : Type} (ctx : Ctx) (script : List (DoResult T)) (now : Int) :
    genshinFetchLoop ctx script now 0 = ⟨.error .rateLimited, 0, [], now⟩ := by
  rcases script with _ | ⟨_ | r, rest⟩ <;> simp [genshinFetchLoop]

/-! ## C1 — retry budget and terminal error -/

/-- C1: the claim that EVERY fetch-with-retry operation makes exactly 3
network attempts on all-transient responses is false at a concrete input:
the zzz per-game loop checks its `retries` counter before incrementing it,
so four straight 429 responses yield 4 network attempts before
`ErrRateLimited`; moreover the genshin per-game loop does not even treat 500
as transient, returning `ErrServerError` after a single attempt. -/
theorem c1_counterexample :
    (zzzFetchProfileWithRetry Ctx.none
        ([.success ⟨429, "", Option.none⟩, .success ⟨429, "", Option.none⟩,
          .success ⟨429, "", Option.none⟩, .success ⟨429, "", Option.none⟩,
          .success ⟨200, "", some ⟨60, 1⟩⟩] : List (DoResult Profile)) 0).attempts = 4 ∧
    (zzzFetchProfileWithRetry Ctx.none
        ([.success ⟨429, "", Option.none⟩, .success ⟨429, "", Option.none⟩,
          .success ⟨429, "", Option.none⟩, .success ⟨429, "", Option.none⟩,
          .success ⟨200, "", some ⟨60, 1⟩⟩] : List (DoResult Profile)) 0).result =
      .error .rateLimited ∧
    (genshinFetchProfileWithRetry Ctx.none
        ([.success ⟨500, "", Option.none⟩, .success ⟨500, "", Option.none⟩,
          .success ⟨500, "", Option.none⟩] : List (DoResult Profile)) 0) =
      ⟨.error .serverError, 1, [], 0⟩ := by
  decide

/-- C1 (amended): with an uncancelled context, `Fetcher.FetchWithRetry` —
the fetch path of the hsr client and the fetcher-based zzz and enka
clients — makes exactly 3 network attempts and returns `ErrRateLimited`
when every attempt draws a transient status (429, 500 or 503, in any mix,
whatever the final one); the genshin per-game loop does so on three
straight 429s (it retries only 429); the old zzz per-game loop makes
exactly 4 attempts on straight 429s before its `ErrRateLimited`. -/
theorem c1_amended (r1 r2 r3 q1 q2 q3 z1 z2 z3 z4 : HTTPResponse Profile)
    (rest rest2 rest3 : List (DoResult Profile)) (now : Int)
    (h1 : r1.statusCode = 429 ∨ r1.statusCode = 500 ∨ r1.statusCode = 503)
    (h2 : r2.statusCode = 429 ∨ r2.statusCode = 500 ∨ r2.statusCode = 503)
    (h3 : r3.statusCode = 429 ∨ r3.statusCode = 500 ∨ r3.statusCode = 503)
    (hq1 : q1.statusCode = 429) (hq2 : q2.statusCode = 429) (hq3 : q3.statusCode = 429)
    (hz1 : z1.statusCode = 429) (hz2 : z2.statusCode = 429) (hz3 : z3.statusCode = 429)
    (hz4 : z4.statusCode = 429) :
    ((FetchWithRetry Ctx.none (.success r1 :: .success r2 :: .success r3 :: rest) now).result =
        .error .rateLimited ∧
      (FetchWithRetry Ctx.none (.success r1 :: .success r2 :: .success r3 :: rest) now).attempts =
        3) ∧
    ((genshinFetchProfileWithRetry Ctx.none
          (.success q1 :: .success q2 :: .success q3 :: rest2) now).result =
        .error .rateLimited ∧
      (genshinFetchProfileWithRetry Ctx.none
          (.success q1 :: .success q2 :: .success q3 :: rest2) now).attempts = 3) ∧
    ((zzzFetchProfileWithRetry Ctx.none
          (.success z1 :: .success z2 :: .success z3 :: .success z4 :: rest3) now).result =
        .error .rateLimited ∧
      (zzzFetchProfileWithRetry Ctx.none
          (.success z1 :: .success z2 :: .success z3 :: .success z4 :: rest3) now).attempts =
        4) := by
  rcases h1 with h1 | h1 | h1 <;> rcases h2 with h2 | h2 | h2 <;> rcases h3 with h3 | h3 | h3 <;>
    simp [FetchWithRetry, genshinFetchProfileWithRetry, zzzFetchProfileWithRetry, fetchLoop,
      genshinFetchLoop, zzzFetchLoop, maxRetries, h1, h2, h3, hq1, hq2, hq3, hz1, hz2, hz3, hz4]

/-- Witness for C1 (amended) at concrete transient scripts. -/
theorem c1_amended_witness :
    (FetchWithRetry Ctx.none
        ([.success ⟨429, "", Option.none⟩, .success ⟨500, "", Option.none⟩,
          .success ⟨503, "", Option.none⟩] : List (DoResult Profile)) 0).result =
      .error .rateLimited := by
  exact (c1_amended ⟨429, "", Option.none⟩ ⟨500, "", Option.none⟩ ⟨503, "", Option.none⟩
    ⟨429, "", Option.none⟩ ⟨429, "", Option.none⟩ ⟨429, "", Option.none⟩
    ⟨429, "", Option.none⟩ ⟨429, "", Option.none⟩ ⟨429, "", Option.none⟩
    ⟨429, "", Option.none⟩ [] [] [] 0 (by decide) (by decide) (by decide)
    rfl rfl rfl rfl rfl rfl rfl).1.1

/-! ## C2 — transient handling and delay selection -/

/-- C2: the claim that every fetch-with-retry operation treats 429, 500 and
503 as transient on a non-final attempt is false at a concrete input: the
genshin per-game loop returns `ErrServerError` immediately on a 500 on
its very first attempt — no delay, no wait, no retry — even with a 200
scripted right behind it. -/
theorem c2_counterexample :
    (genshinFetchProfileWithRetry Ctx.none
        ([.success ⟨500, "120", Option.none⟩, .success ⟨200, "", some ⟨60, 1⟩⟩] :
          List (DoResult Profile)) 0) =
      ⟨.error .serverError, 1, [], 0⟩ := by
  decide

/-- C2 (amended): `Fetcher.FetchWithRetry` treats 429/500/503 on a non-final
attempt as transient — it waits the computed delay and retries — where the
delay comes from the `Retry-After` header for 429 and 503 when the header is
present, and is always the fixed 5-second default for 500 (the header is not
consulted) and for an absent header.  This fetcher is the fetch path of the
hsr client.  The genshin per-game loop instead treats only 429 as
transient, waiting its own header conversion `genshinRetryDelay`; a 500 or
503 there returns `ErrServerError` or `ErrServiceUnavailable` immediately
on any attempt. -/
theorem c2_amended :
    (∀ (T : Type) (r : HTTPResponse T) (rest : List (DoResult T)) (now : Int) (rem : Nat),
      (r.statusCode = 429 ∨ r.statusCode = 500 ∨ r.statusCode = 503) → 1 < rem →
      fetchLoop Ctx.none (.success r :: rest) now rem =
        (let o := fetchLoop Ctx.none rest (now + max (fetchDelay r now) 0) (rem - 1)
        ⟨o.result, o.attempts + 1, fetchDelay r now :: o.waits, o.finish⟩)) ∧
    (∀ (T : Type) (r : HTTPResponse T) (now : Int), r.statusCode = 500 →
      fetchDelay r now = defaultRetryDelay) ∧
    (∀ (T : Type) (r : HTTPResponse T) (now : Int),
      (r.statusCode = 429 ∨ r.statusCode = 503) → r.retryAfter ≠ "" →
      fetchDelay r now = parseRetryAfter r.retryAfter now) ∧
    (∀ (T : Type) (r : HTTPResponse T) (now : Int), r.retryAfter = "" →
      fetchDelay r now = defaultRetryDelay) ∧
    (∀ (r : HTTPResponse Profile) (rest : List (DoResult Profile)) (now : Int) (rem : Nat),
      r.statusCode = 429 → rem ≠ 0 →
      genshinFetchLoop Ctx.none (.success r :: rest) now rem =
        (let o := genshinFetchLoop Ctx.none rest
          (now + max (genshinRetryDelay r.retryAfter) 0) (rem - 1)
        ⟨o.result, o.attempts + 1, genshinRetryDelay r.retryAfter :: o.waits, o.finish⟩)) ∧
    (∀ (r : HTTPResponse Profile) (rest : List (DoResult Profile)) (now : Int) (rem : Nat),
      r.statusCode = 500 → rem ≠ 0 →
      genshinFetchLoop Ctx.none (.success r :: rest) now rem = ⟨.error .serverError, 1, [], now⟩) ∧
    (∀ (r : HTTPResponse Profile) (rest : List (DoResult Profile)) (now : Int) (rem : Nat),
      r.statusCode = 503 → rem ≠ 0 →
      genshinFetchLoop Ctx.none (.success r :: rest) now rem =
        ⟨.error .serviceUnavailable, 1, [], now⟩) := by
  refine ⟨?_, ?_, ?_, ?_, ?_, ?_, ?_⟩
  · intro T r rest now rem h hrem
    have hne : ¬ rem = 0 := by omega
    rcases h with h | h | h <;> simp [fetchLoop, h, hne, hrem]
  · intro T r now h
    simp [fetchDelay, h]
  · intro T r now h hra
    rcases h with h | h <;> simp [fetchDelay, h, hra]
  · intro T r now h
    simp [fetchDelay, h]
  · intro r rest now rem h hne
    simp [genshinFetchLoop, h, hne]
  · intro r rest now rem h hne
    simp [genshinFetchLoop, h, hne]
  · intro r rest now rem h hne
    simp [genshinFetchLoop, h, hne]

/-- Witness for C2 (amended): a non-final 500 in the core fetcher waits the
fixed default and retries, and its delay ignores the header. -/
theorem c2_amended_witness :
    fetchLoop Ctx.none
        ([.success ⟨500, "120", Option.none⟩, .success ⟨200, "", some ⟨60, 1⟩⟩] :
          List (DoResult Profile)) 0 3 =
      (let o := fetchLoop Ctx.none ([.success ⟨200, "", some ⟨60, 1⟩⟩] : List (DoResult Profile))
        (0 + max (fetchDelay (⟨500, "120", Option.none⟩ : HTTPResponse Profile) 0) 0) 2
      ⟨o.result, o.attempts + 1, fetchDelay (⟨500, "120", Option.none⟩ : HTTPResponse Profile) 0 ::
        o.waits, o.finish⟩) ∧
    fetchDelay (⟨500, "120", Option.none⟩ : HTTPResponse Profile) 0 = defaultRetryDelay := by
  exact ⟨c2_amended.1 Profile ⟨500, "120", Option.none⟩ [.success ⟨200, "", some ⟨60, 1⟩⟩] 0 3
    (by decide) (by decide), c2_amended.2.1 Profile ⟨500, "120", Option.none⟩ 0 rfl⟩

/-! ## C3 — store-then-get round trip -/

/-- C3: `GetUserProfileHoyos` stores the `*Hoyos` pointer returned by the
fetcher but its hit path type-asserts the value type `Hoyos`, so the second
call with identical parameters finds the entry, fails the assertion, and
fetches again (`netCalls = 1`, not `0`) — and the same holds for
`GetUserProfileHoyoBuilds` with `*AvatarBuildsMap` versus `AvatarBuildsMap`.
The sibling `GetUserProfileHoyo`, whose stored and asserted types agree,
round-trips with zero network calls, witnessing that the claim is the
intended behaviour and the two pointer/value mismatches are the slip. -/
theorem c3_theorem :
    (let first := enkaGetUserProfileHoyos (some MemCache.empty) Ctx.none
        [.success ⟨200, "", some ⟨7⟩⟩] 0 "Algoinde"
     first.result = .ok ⟨7⟩ ∧ first.sets = 1 ∧ first.netCalls = 1 ∧
      (let second := enkaGetUserProfileHoyos first.cache Ctx.none
          [.success ⟨200, "", some ⟨7⟩⟩] 0 "Algoinde"
       second.gets = 1 ∧ second.netCalls = 1)) ∧
    (let first := enkaGetUserProfileHoyoBuilds (some MemCache.empty) Ctx.none
        [.success ⟨200, "", some ⟨3⟩⟩] 0 "Algoinde" "4Wjv2e"
     first.result = .ok ⟨3⟩ ∧ first.sets = 1 ∧ first.netCalls = 1 ∧
      (let second := enkaGetUserProfileHoyoBuilds first.cache Ctx.none
          [.success ⟨200, "", some ⟨3⟩⟩] 0 "Algoinde" "4Wjv2e"
       second.gets = 1 ∧ second.netCalls = 1)) ∧
    (let first := enkaGetUserProfileHoyo (some MemCache.empty) Ctx.none
        [.success ⟨200, "", some ⟨9⟩⟩] 0 "Algoinde" "4Wjv2e"
     first.result = .ok ⟨9⟩ ∧ first.sets = 1 ∧ first.netCalls = 1 ∧
      (let second := enkaGetUserProfileHoyo first.cache Ctx.none [] 0 "Algoinde" "4Wjv2e"
       second.result = .ok ⟨9⟩ ∧ second.netCalls = 0 ∧ second.sets = 0)) := by
  decide

/-! ## C4 — cache-key determinism and injectivity -/

theorem string_ext {a b : String} (h : a.data = b.data) : a = b :=
  congrArg String.mk h

theorem string_data_append (a b : String) : (a ++ b).data = a.data ++ b.data := rfl

theorem string_append_assoc (a b c : String) : a ++ b ++ c = a ++ (b ++ c) := by
  apply string_ext
  simp [string_data_append, List.append_assoc]

theorem string_append_cancel_left {p a b : String} (h : p ++ a = p ++ b) : a = b := by
  apply string_ext
  have hd : p.data ++ a.data = p.data ++ b.data := by
    simpa [string_data_append] using congrArg String.data h
  exact List.append_cancel_left hd

/-- Splitting at the first underscore: when neither left part contains an
underscore, an equality of `left ++ sep-led tails` determines both halves. -/
theorem sep_split : ∀ (a c r s : List Char), '_' ∉ a → '_' ∉ c →
    a ++ '_' :: r = c ++ '_' :: s → a = c ∧ r = s := by
  intro a
  induction a with
  | nil =>
    intro c r s _ hc h
    cases c with
    | nil =>
      simp only [List.nil_append, List.cons.injEq] at h
      exact ⟨rfl, h.2⟩
    | cons y ys =>
      exfalso
      simp only [List.nil_append, List.cons_append, List.cons.injEq] at h
      apply hc
      rw [← h.1]
      exact List.mem_cons_self _ _
  | cons x xs ih =>
    intro c r s ha hc h
    cases c with
    | nil =>
      exfalso
      simp only [List.nil_append, List.cons_append, List.cons.injEq] at h
      apply ha
      rw [← h.1]
      exact List.mem_cons_self _ _
    | cons y ys =>
      simp only [List.cons_append, List.cons.injEq] at h
      have hxs : '_' ∉ xs := fun hm => ha (List.mem_cons_of_mem x hm)
      have hys : '_' ∉ ys := fun hm => hc (List.mem_cons_of_mem y hm)
      obtain ⟨he, ht⟩ := ih ys r s hxs hys h.2
      exact ⟨by rw [h.1, he], ht⟩

/-- C4: key derivation is not injective across calls — two valid (non-empty,
distinct) parameter pairs of `GetUserProfileHoyo` collide on the same key
`"user_A_hoyos_X_hoyos_Y"` because a username may embed the `"_hoyos_"`
separator. -/
theorem c4_counterexample :
    userHoyoKey "A_hoyos_X" "Y" = userHoyoKey "A" "X_hoyos_Y" ∧
    ¬("A_hoyos_X" = "A" ∧ "Y" = "X_hoyos_Y") ∧
    "A_hoyos_X" ≠ "" ∧ "Y" ≠ "" ∧ "A" ≠ "" ∧ "X_hoyos_Y" ≠ "" := by
  decide

/-- C4 (amended): key derivation is deterministic (each key is a function of
the identifying parameters), the single-parameter key families are injective
and pairwise distinct across the `genshin_`/`hsr_`/`zzz_`/`user_` tags, the
profile and `_info` mode keys differ for validated UIDs, and the enka
two-parameter keys are injective and pairwise distinct provided the
parameters do not embed the underscore separator — without that proviso
distinct parameters can collide (see the counterexample). -/
theorem c4_amended :
    (∀ u1 u2 : String, genshinProfileKey u1 = genshinProfileKey u2 → u1 = u2) ∧
    (∀ u1 u2 : String, hsrProfileKey u1 = hsrProfileKey u2 → u1 = u2) ∧
    (∀ u1 u2 : String, zzzProfileKey u1 = zzzProfileKey u2 → u1 = u2) ∧
    (∀ u1 u2 : String, userProfileKey u1 = userProfileKey u2 → u1 = u2) ∧
    (∀ u1 u2 : String, userHoyosKey u1 = userHoyosKey u2 → u1 = u2) ∧
    (∀ u1 u2 : String, IsValidUID u1 → IsValidUID u2 →
      genshinProfileKey u1 ≠ genshinPlayerInfoKey u2) ∧
    (∀ u1 u2 : String, genshinProfileKey u1 ≠ hsrProfileKey u2 ∧
      genshinProfileKey u1 ≠ zzzProfileKey u2 ∧ genshinProfileKey u1 ≠ userProfileKey u2 ∧
      hsrProfileKey u1 ≠ zzzProfileKey u2 ∧ hsrProfileKey u1 ≠ userProfileKey u2 ∧
      zzzProfileKey u1 ≠ userProfileKey u2) ∧
    (∀ u1 h1 u2 h2 : String, '_' ∉ u1.data → '_' ∉ u2.data →
      userHoyoKey u1 h1 = userHoyoKey u2 h2 → u1 = u2 ∧ h1 = h2) ∧
    (∀ u1 h1 u2 h2 : String, '_' ∉ u1.data → '_' ∉ u2.data →
      userBuildsKey u1 h1 = userBuildsKey u2 h2 → u1 = u2 ∧ h1 = h2) ∧
    (∀ u1 u2 h2 : String, '_' ∉ u1.data → '_' ∉ u2.data →
      userProfileKey u1 ≠ userHoyosKey u2 ∧ userProfileKey u1 ≠ userHoyoKey u2 h2 ∧
      userHoyosKey u1 ≠ userHoyoKey u2 h2) ∧
    (∀ u1 h1 u2 h2 : String, '_' ∉ u1.data → '_' ∉ u2.data → '_' ∉ h1.data →
      userHoyoKey u1 h1 ≠ userBuildsKey u2 h2) := by
  have hdata : ∀ a b : String, a = b → a.data = b.data := fun a b h => congrArg String.data h
  refine ⟨?_, ?_, ?_, ?_, ?_, ?_, ?_, ?_, ?_, ?_, ?_⟩
  · intro u1 u2 h
    exact string_append_cancel_left (p := "genshin_") h
  · intro u1 u2 h
    exact string_append_cancel_left (p := "hsr_") h
  · intro u1 u2 h
    exact string_append_cancel_left (p := "zzz_") h
  · intro u1 u2 h
    exact string_append_cancel_left (p := "user_") h
  · intro u1 u2 h
    have h2 := string_append_cancel_left (p := "user_")
      (by simpa [userHoyosKey, string_append_assoc] using h)
    have h3 := hdata _ _ h2
    simp only [string_data_append] at h3
    exact string_ext (List.append_cancel_right h3)
  · intro u1 u2 hv1 hv2 h
    simp only [IsValidUID, Bool.and_eq_true, beq_iff_eq] at hv1 hv2
    have hl := congrArg List.length (hdata _ _ h)
    simp only [genshinProfileKey, genshinPlayerInfoKey, string_data_append,
      List.length_append] at hl
    have l1 : u1.data.length = 9 := hv1.1
    have l2 : u2.data.length = 9 := hv2.1
    simp at hl
    omega
  · intro u1 u2
    refine ⟨?_, ?_, ?_, ?_, ?_, ?_⟩ <;>
      · intro h
        have h3 := hdata _ _ h
        simp only [genshinProfileKey, hsrProfileKey, zzzProfileKey, userProfileKey,
          string_data_append] at h3
        simpa using congrArg List.head? h3
  · intro u1 h1 u2 h2 hu1 hu2 h
    have h4 := string_append_cancel_left (p := "user_")
      (by simpa [userHoyoKey, string_append_assoc] using h)
    have h5 : u1.data ++ '_' :: ("hoyos_".data ++ h1.data) =
        u2.data ++ '_' :: ("hoyos_".data ++ h2.data) := by
      simpa [string_data_append] using hdata _ _ h4
    obtain ⟨he, ht⟩ := sep_split _ _ _ _ hu1 hu2 h5
    exact ⟨string_ext he, string_ext (List.append_cancel_left ht)⟩
  · intro u1 h1 u2 h2 hu1 hu2 h
    have h4 := string_append_cancel_left (p := "user_")
      (by simpa [userBuildsKey, string_append_assoc] using h)
    have h5 : u1.data ++ '_' :: ("hoyos_".data ++ (h1.data ++ "_builds".data)) =
        u2.data ++ '_' :: ("hoyos_".data ++ (h2.data ++ "_builds".data)) := by
      simpa [string_data_append] using hdata _ _ h4
    obtain ⟨he, ht⟩ := sep_split _ _ _ _ hu1 hu2 h5
    have ht2 := List.append_cancel_left ht
    exact ⟨string_ext he, string_ext (List.append_cancel_right ht2)⟩
  · intro u1 u2 h2 hu1 hu2
    refine ⟨?_, ?_, ?_⟩
    · intro h
      have h4 := string_append_cancel_left (p := "user_")
        (by simpa [userProfileKey, userHoyosKey, string_append_assoc] using h)
      have h5 : u1.data = u2.data ++ "_hoyos".data := by
        simpa [string_data_append] using hdata _ _ h4
      exact hu1 (h5 ▸ List.mem_append_right u2.data (by decide))
    · intro h
      have h4 := string_append_cancel_left (p := "user_")
        (by simpa [userProfileKey, userHoyoKey, string_append_assoc] using h)
      have h5 : u1.data = u2.data ++ ("_hoyos_".data ++ h2.data) := by
        simpa [string_data_append] using hdata _ _ h4
      exact hu1 (h5 ▸ List.mem_append_right u2.data (List.mem_append_left _ (by decide)))
    · intro h
      have h4 := string_append_cancel_left (p := "user_")
        (by simpa [userHoyosKey, userHoyoKey, string_append_assoc] using h)
      have h5 : u1.data ++ '_' :: "hoyos".data =
          u2.data ++ '_' :: ("hoyos_".data ++ h2.data) := by
        simpa [string_data_append] using hdata _ _ h4
      obtain ⟨-, ht⟩ := sep_split _ _ _ _ hu1 hu2 h5
      have hlen := congrArg List.length ht
      simp at hlen
  · intro u1 h1 u2 h2 hu1 hu2 hh1 h
    have h4 := string_append_cancel_left (p := "user_")
      (by simpa [userHoyoKey, userBuildsKey, string_append_assoc] using h)
    have h5 : u1.data ++ '_' :: ("hoyos_".data ++ h1.data) =
        u2.data ++ '_' :: ("hoyos_".data ++ (h2.data ++ "_builds".data)) := by
      simpa [string_data_append] using hdata _ _ h4
    obtain ⟨-, ht⟩ := sep_split _ _ _ _ hu1 hu2 h5
    have ht2 := List.append_cancel_left ht
    exact hh1 (ht2 ▸ List.mem_append_right h2.data (by decide))

/-- Witness for C4 (amended): injectivity applied at concrete keys. -/
theorem c4_amended_witness :
    "618285856" = "618285856" ∧ ("Algoinde", "4Wjv2e") = ("Algoinde", "4Wjv2e") := by
  refine ⟨c4_amended.1 "618285856" "618285856" rfl, ?_⟩
  have := c4_amended.2.2.2.2.2.2.2.1 "Algoinde" "4Wjv2e" "Algoinde" "4Wjv2e"
    (by decide) (by decide) rfl
  simp [this.1, this.2]

/-! ## C5 — validation failures have zero side effects -/

/-- C5: an identifier failing its format rule returns the classified format
error with the cache unchanged and zero cache reads, cache writes and
network calls, for the genshin and zzz profile methods (invalid UID), and
for the enka methods (empty username, empty hoyo hash). -/
theorem c5_theorem :
    (∀ (cache : Option MemCache) (ctx : Ctx) (script : List (DoResult Profile)) (now : Int)
      (uid : String), IsValidUID uid = false →
      genshinGetProfile cache ctx script now uid = ⟨.error .invalidUIDFormat, cache, 0, 0, 0⟩) ∧
    (∀ (cache : Option MemCache) (ctx : Ctx) (script : List (DoResult ZProfile)) (now : Int)
      (uid : String), zzzIsValidUID uid = false →
      zzzGetProfile cache ctx script now uid = ⟨.error .invalidUIDFormat, cache, 0, 0, 0⟩) ∧
    (∀ (cache : Option MemCache) (ctx : Ctx) (script : List (DoResult Owner)) (now : Int),
      enkaGetUserProfile cache ctx script now "" = ⟨.error .invalidUsername, cache, 0, 0, 0⟩) ∧
    (∀ (cache : Option MemCache) (ctx : Ctx) (script : List (DoResult Hoyos)) (now : Int),
      enkaGetUserProfileHoyos cache ctx script now "" =
        ⟨.error .invalidUsername, cache, 0, 0, 0⟩) ∧
    (∀ (cache : Option MemCache) (ctx : Ctx) (script : List (DoResult Hoyo)) (now : Int)
      (username hoyoHash : String),
      (enkaGetUserProfileHoyo cache ctx script now "" hoyoHash =
        ⟨.error .invalidUsername, cache, 0, 0, 0⟩) ∧
      (username ≠ "" → enkaGetUserProfileHoyo cache ctx script now username "" =
        ⟨.error .invalidHoyoHash, cache, 0, 0, 0⟩)) ∧
    (∀ (cache : Option MemCache) (ctx : Ctx) (script : List (DoResult AvatarBuildsMap))
      (now : Int) (username hoyoHash : String),
      (enkaGetUserProfileHoyoBuilds cache ctx script now "" hoyoHash =
        ⟨.error .invalidUsername, cache, 0, 0, 0⟩) ∧
      (username ≠ "" → enkaGetUserProfileHoyoBuilds cache ctx script now username "" =
        ⟨.error .invalidHoyoHash, cache, 0, 0, 0⟩)) := by
  refine ⟨?_, ?_, ?_, ?_, ?_, ?_⟩
  · intro cache ctx script now uid h
    simp [genshinGetProfile, h]
  · intro cache ctx script now uid h
    simp [zzzGetProfile, h]
  · intro cache ctx script now
    simp [enkaGetUserProfile]
  · intro cache ctx script now
    simp [enkaGetUserProfileHoyos]
  · intro cache ctx script now username hoyoHash
    exact ⟨by simp [enkaGetUserProfileHoyo], fun h => by simp [enkaGetUserProfileHoyo, h]⟩
  · intro cache ctx script now username hoyoHash
    exact ⟨by simp [enkaGetUserProfileHoyoBuilds],
      fun h => by simp [enkaGetUserProfileHoyoBuilds, h]⟩

/-- Witness for C5 at concrete invalid identifiers. -/
theorem c5_theorem_witness :
    genshinGetProfile (some MemCache.empty) Ctx.none [] 0 "12a456789" =
      ⟨.error .invalidUIDFormat, some MemCache.empty, 0, 0, 0⟩ ∧
    enkaGetUserProfileHoyo (some MemCache.empty) Ctx.none [] 0 "Algoinde" "" =
      ⟨.error .invalidHoyoHash, some MemCache.empty, 0, 0, 0⟩ := by
  exact ⟨c5_theorem.1 (some MemCache.empty) Ctx.none [] 0 "12a456789" (by decide),
    (c5_theorem.2.2.2.2.1 (some MemCache.empty) Ctx.none [] 0 "Algoinde" "").2 (by decide)⟩

/-! ## C6 — Retry-After conversion -/

theorem wrap64_eq_self {v : Int} (h1 : int64Min ≤ v) (h2 : v ≤ int64Max) : wrap64 v = v := by
  unfold wrap64
  unfold int64Min at h1
  unfold int64Max at h2
  rw [Int.emod_eq_of_lt (by omega) (by omega)]
  omega

theorem sat64_eq_self {v : Int} (h1 : int64Min ≤ v) (h2 : v ≤ int64Max) : sat64 v = v := by
  unfold sat64
  rw [min_eq_right h2, max_eq_right h1]

theorem sat64_nonpos {v : Int} (h : v ≤ 0) : sat64 v ≤ 0 := by
  unfold sat64
  exact max_le (by norm_num [int64Min]) (le_trans (min_le_right _ _) h)

/-- C6: the claim describes a single retry-after conversion with an
HTTP-date branch, but the genshin per-game loop uses its own inline
conversion `time.ParseDuration(v + "s")`, for which an HTTP-date is
garbage: a past RFC1123 date yields the 5-second default there, while the
claim (and the core `parseRetryAfter`, shown alongside) requires zero. -/
theorem c6_counterexample :
    genshinRetryDelay "Mon, 02 Jan 2006 15:04:05 GMT" = 5 * nsPerSecond ∧
    goAtoi "Mon, 02 Jan 2006 15:04:05 GMT" = Option.none ∧
    rfc1123Epoch "Mon, 02 Jan 2006 15:04:05 GMT" = some 1136214245000000000 ∧
    parseRetryAfter "Mon, 02 Jan 2006 15:04:05 GMT" 1136214246000000000 = 0 ∧
    (5 * nsPerSecond : Int) ≠ 0 := by
  decide

/-- C6 (amended): the core `parseRetryAfter` — the conversion used wherever
the generic fetcher runs, the hsr client included — never fails and follows
the claimed algorithm: an integer `N` (within the range whose nanosecond
equivalent fits `int64`) yields `N` seconds, an HTTP-date yields the delta
from now clamped to zero when past, and everything else (garbage, absent)
yields the fixed 5-second default.  The genshin loop's inline conversion
instead yields `N` seconds only for Go-duration-parsable values and falls
back to the 5-second default for all others, HTTP-dates included. -/
theorem c6_amended :
    (∀ (s : String) (n now : Int), goAtoi s = some n →
      -9223372036 ≤ n → n ≤ 9223372036 → parseRetryAfter s now = n * nsPerSecond) ∧
    (∀ (s : String) (now d : Int), goAtoi s = Option.none → rfc1123Epoch s = some d →
      d ≤ now → parseRetryAfter s now = 0) ∧
    (∀ (s : String) (now d : Int), goAtoi s = Option.none → rfc1123Epoch s = some d →
      now < d → d - now ≤ int64Max → parseRetryAfter s now = d - now) ∧
    (∀ (s : String) (now : Int), goAtoi s = Option.none → rfc1123Epoch s = Option.none →
      parseRetryAfter s now = defaultRetryDelay) ∧
    (parseRetryAfter "120" 0 = 120 * nsPerSecond ∧
      parseRetryAfter "garbage" 0 = defaultRetryDelay ∧
      parseRetryAfter "" 0 = defaultRetryDelay) ∧
    (∀ v : String, v ≠ "" → goParseDuration (v ++ "s") = Option.none →
      genshinRetryDelay v = 5 * nsPerSecond) ∧
    (genshinRetryDelay "" = 5 * nsPerSecond ∧ genshinRetryDelay "120" = 120 * nsPerSecond) := by
  refine ⟨?_, ?_, ?_, ?_, by decide, ?_, by decide⟩
  · intro s n now hA hlo hhi
    simp only [parseRetryAfter, hA]
    apply wrap64_eq_self
    · unfold int64Min nsPerSecond
      omega
    · unfold int64Max nsPerSecond
      omega
  · intro s now d hA hD hle
    have hx : sat64 (d - now) ≤ 0 := sat64_nonpos (by omega)
    simp only [parseRetryAfter, hA, hD]
    split_ifs with hc
    · rfl
    · omega
  · intro s now d hA hD hlt hfit
    have hmin : int64Min ≤ d - now := by
      unfold int64Min
      omega
    have hx : sat64 (d - now) = d - now := sat64_eq_self hmin hfit
    simp only [parseRetryAfter, hA, hD, hx]
    split_ifs with hc
    · omega
    · rfl
  · intro s now hA hD
    simp [parseRetryAfter, hA, hD]
  · intro v hne hfail
    simp [genshinRetryDelay, hne, hfail]

/-- Witness for C6 (amended): the integer and garbage branches applied at
concrete header values. -/
theorem c6_amended_witness :
    parseRetryAfter "119" 7 = 119 * nsPerSecond ∧
    genshinRetryDelay "garbage" = 5 * nsPerSecond := by
  exact ⟨c6_amended.1 "119" 119 7 (by decide) (by decide) (by decide),
    c6_amended.2.2.2.2.2.1 "garbage" (by decide) (by decide)⟩

/-! ## C7 — cancellation during backoff -/

/-- C7: the claim that every fetch-with-retry operation aborts a pending
backoff immediately on context cancellation is false at a concrete input:
the zzz per-game loop sleeps with a bare `time.Sleep`, so with the context
cancelled at t = 1ns during a 5-second backoff it still completes the full
sleep and returns only at t = 5s — with the transport-level error of the
next `Do`, not `ctx.Err()` — while the core fetcher under the same script
and context returns `ctx.Err()` at t = 1ns with no completed wait. -/
theorem c7_counterexample :
    zzzFetchProfileWithRetry (⟨some 1⟩ : Ctx)
        ([.success ⟨429, "", Option.none⟩, .success ⟨429, "", Option.none⟩] :
          List (DoResult Profile)) 0 =
      ⟨.error .transportFailure, 1, [5000000000], 5000000000⟩ ∧
    FetchWithRetry (⟨some 1⟩ : Ctx)
        ([.success ⟨429, "", Option.none⟩, .success ⟨429, "", Option.none⟩] :
          List (DoResult Profile)) 0 =
      ⟨.error .ctxCanceled, 1, [], 1⟩ := by
  decide

/-- C7 (amended): in `Fetcher.FetchWithRetry` (the fetch path of the hsr
client and its fetcher-based siblings) and in the genshin per-game loop, a
cancellation that fires during a pending backoff wait aborts the select
immediately: the call returns `ctx.Err()` at the cancellation instant with
no completed backoff wait and no further network attempt.  The old zzz loop
has no such select: its 429 branch always completes the full `time.Sleep`
regardless of the cancellation time. -/
theorem c7_amended :
    (∀ (T : Type) (r : HTTPResponse T) (rest : List (DoResult T)) (now : Int) (rem : Nat)
      (c : Int), (r.statusCode = 429 ∨ r.statusCode = 500 ∨ r.statusCode = 503) → 1 < rem →
      now < c → c < now + fetchDelay r now →
      fetchLoop ⟨some c⟩ (.success r :: rest) now rem = ⟨.error .ctxCanceled, 1, [], c⟩) ∧
    (∀ (T : Type) (r : HTTPResponse T) (rest : List (DoResult T)) (now : Int) (rem : Nat)
      (c : Int), r.statusCode = 429 → rem ≠ 0 → now < c →
      c < now + genshinRetryDelay r.retryAfter →
      genshinFetchLoop ⟨some c⟩ (.success r :: rest) now rem =
        ⟨.error .ctxCanceled, 1, [], c⟩) ∧
    (∀ (T : Type) (r : HTTPResponse T) (rest : List (DoResult T)) (now : Int) (rem : Nat)
      (c : Int), r.statusCode = 429 → rem ≠ 0 → now < c →
      zzzFetchLoop ⟨some c⟩ (.success r :: rest) now rem =
        (let o := zzzFetchLoop ⟨some c⟩ rest (now + max (zzzWaitTime r.retryAfter) 0) (rem - 1)
        ⟨o.result, o.attempts + 1, max (zzzWaitTime r.retryAfter) 0 :: o.waits, o.finish⟩)) := by
  refine ⟨?_, ?_, ?_⟩
  · intro T r rest now rem c h hrem hnow hwin
    have hne : ¬ rem = 0 := by omega
    have hdone : ¬ c ≤ now := by omega
    rcases h with h | h | h <;>
      simp [fetchLoop, Ctx.doneAt, Ctx.winsWait, h, hne, hrem, hdone, hwin,
        max_eq_right hnow.le]
  · intro T r rest now rem c h hne hnow hwin
    have hdone : ¬ c ≤ now := by omega
    simp [genshinFetchLoop, Ctx.doneAt, Ctx.winsWait, h, hne, hdone, hwin,
      max_eq_right hnow.le]
  · intro T r rest now rem c h hne hnow
    have hdone : ¬ c ≤ now := by omega
    simp [zzzFetchLoop, Ctx.doneAt, h, hne, hdone]

/-- Witness for C7 (amended) at a concrete cancelled context. -/
theorem c7_amended_witness :
    fetchLoop (⟨some 2⟩ : Ctx)
        ([.success ⟨503, "", Option.none⟩, .success ⟨200, "", some ⟨60, 1⟩⟩] :
          List (DoResult Profile)) 0 3 =
      ⟨.error .ctxCanceled, 1, [], 2⟩ := by
  exact c7_amended.1 Profile ⟨503, "", Option.none⟩ [.success ⟨200, "", some ⟨60, 1⟩⟩] 0 3 2
    (by decide) (by decide) (by decide) (by decide)

/-! ## C8 — 404 translation and error pass-through -/

/-- C8: a 404 response returns on the first attempt with no retries and no
waits, as `ErrPlayerNotFound` from all three retry loops; each enka resource
method translates exactly `ErrPlayerNotFound` into its resource-specific
not-found error (user / hoyo account / builds) and passes every other
classified error through unchanged. -/
theorem c8_theorem :
    (∀ (T : Type) (r : HTTPResponse T) (rest : List (DoResult T)) (now : Int),
      r.statusCode = 404 →
      FetchWithRetry Ctx.none (.success r :: rest) now =
        ⟨.error .playerNotFound, 1, [], now⟩) ∧
    (∀ (T : Type) (r : HTTPResponse T) (rest : List (DoResult T)) (now : Int) (rem : Nat),
      r.statusCode = 404 → rem ≠ 0 →
      genshinFetchLoop Ctx.none (.success r :: rest) now rem =
        ⟨.error .playerNotFound, 1, [], now⟩) ∧
    (∀ (T : Type) (r : HTTPResponse T) (rest : List (DoResult T)) (now : Int) (rem : Nat),
      r.statusCode = 404 →
      zzzFetchLoop Ctx.none (.success r :: rest) now rem =
        ⟨.error .playerNotFound, 1, [], now⟩) ∧
    (∀ (script : List (DoResult Owner)) (now : Int) (username : String) (e : FetchError),
      username ≠ "" → (FetchWithRetry Ctx.none script now).result = .error e →
      (enkaGetUserProfile Option.none Ctx.none script now username).result =
        .error (translate404 .userNotFound e)) ∧
    (∀ (script : List (DoResult Hoyos)) (now : Int) (username : String) (e : FetchError),
      username ≠ "" → (FetchWithRetry Ctx.none script now).result = .error e →
      (enkaGetUserProfileHoyos Option.none Ctx.none script now username).result =
        .error (translate404 .userNotFound e)) ∧
    (∀ (script : List (DoResult Hoyo)) (now : Int) (username hoyoHash : String) (e : FetchError),
      username ≠ "" → hoyoHash ≠ "" → (FetchWithRetry Ctx.none script now).result = .error e →
      (enkaGetUserProfileHoyo Option.none Ctx.none script now username hoyoHash).result =
        .error (translate404 .hoyoAccountNotFound e)) ∧
    (∀ (script : List (DoResult AvatarBuildsMap)) (now : Int) (username hoyoHash : String)
      (e : FetchError),
      username ≠ "" → hoyoHash ≠ "" → (FetchWithRetry Ctx.none script now).result = .error e →
      (enkaGetUserProfileHoyoBuilds Option.none Ctx.none script now username hoyoHash).result =
        .error (translate404 .hoyoAccountBuildsNotFound e)) ∧
    (∀ nf : FetchError, translate404 nf .playerNotFound = nf) ∧
    (∀ nf e : FetchError, e ≠ .playerNotFound → translate404 nf e = e) := by
  refine ⟨?_, ?_, ?_, ?_, ?_, ?_, ?_, ?_, ?_⟩
  · intro T r rest now h
    simp [FetchWithRetry, fetchLoop, maxRetries, h]
  · intro T r rest now rem h hne
    simp [genshinFetchLoop, h, hne]
  · intro T r rest now rem h
    rcases Nat.eq_zero_or_pos rem with hz | hp
    · simp [zzzFetchLoop, h, hz]
    · simp [zzzFetchLoop, h, Nat.pos_iff_ne_zero.mp hp]
  · intro script now username e hu hres
    simp [enkaGetUserProfile, hu, hres]
  · intro script now username e hu hres
    simp [enkaGetUserProfileHoyos, hu, hres]
  · intro script now username hoyoHash e hu hh hres
    simp [enkaGetUserProfileHoyo, hu, hh, hres]
  · intro script now username hoyoHash e hu hh hres
    simp [enkaGetUserProfileHoyoBuilds, hu, hh, hres]
  · intro nf
    simp [translate404]
  · intro nf e h
    simp [translate404, h]

/-- Witness for C8 at a concrete 404 script. -/
theorem c8_theorem_witness :
    (enkaGetUserProfileHoyo Option.none Ctx.none
        ([.success ⟨404, "", Option.none⟩] : List (DoResult Hoyo)) 0 "Algoinde" "4Wjv2e").result =
      .error .hoyoAccountNotFound := by
  have h := c8_theorem.2.2.2.2.2.1 [.success ⟨404, "", Option.none⟩] 0 "Algoinde" "4Wjv2e"
    .playerNotFound (by decide) (by decide) (by decide)
  simpa [translate404] using h

/-! ## C9 — success-path caching and the inert nil cache -/

/-- C9: on fetch success with a configured cache, the genshin profile method
stores the result under its derived key with expiration
`time.Duration(profile.TTL) * time.Second` — the payload TTL in seconds
(exactly, whenever the nanosecond value fits `int64`) — while the enka
user-profile method stores for a fixed 5 minutes; with no cache configured
both methods perform zero cache operations and return the same result as
with an empty cache, with no additional error. -/
theorem c9_theorem :
    (∀ (mc : MemCache) (script : List (DoResult Profile)) (now : Int) (uid : String)
      (p : Profile), IsValidUID uid → mc.get (genshinProfileKey uid) now = Option.none →
      (genshinFetchProfileWithRetry Ctx.none script now).result = .ok p →
      genshinGetProfile (some mc) Ctx.none script now uid =
        ⟨.ok p,
          some (mc.set (genshinProfileKey uid) (.genshinProfilePtr p)
            (wrap64 (p.ttl * nsPerSecond)) (genshinFetchProfileWithRetry Ctx.none script now).finish),
          1, 1, (genshinFetchProfileWithRetry Ctx.none script now).attempts⟩) ∧
    (∀ ttl : Int, 0 ≤ ttl → ttl ≤ 9223372036 →
      wrap64 (ttl * nsPerSecond) = ttl * nsPerSecond) ∧
    (∀ (mc : MemCache) (script : List (DoResult Owner)) (now : Int) (username : String)
      (owner : Owner), username ≠ "" → mc.get (userProfileKey username) now = Option.none →
      (FetchWithRetry Ctx.none script now).result = .ok owner →
      enkaGetUserProfile (some mc) Ctx.none script now username =
        ⟨.ok owner,
          some (mc.set (userProfileKey username) (.ownerPtr owner) (5 * nsPerMinute)
            (FetchWithRetry Ctx.none script now).finish),
          1, 1, (FetchWithRetry Ctx.none script now).attempts⟩) ∧
    (∀ (ctx : Ctx) (script : List (DoResult Profile)) (now : Int) (uid : String),
      (genshinGetProfile Option.none ctx script now uid).result =
        (genshinGetProfile (some MemCache.empty) ctx script now uid).result ∧
      (genshinGetProfile Option.none ctx script now uid).gets = 0 ∧
      (genshinGetProfile Option.none ctx script now uid).sets = 0 ∧
      (genshinGetProfile Option.none ctx script now uid).netCalls =
        (genshinGetProfile (some MemCache.empty) ctx script now uid).netCalls) ∧
    (∀ (ctx : Ctx) (script : List (DoResult Owner)) (now : Int) (username : String),
      (enkaGetUserProfile Option.none ctx script now username).result =
        (enkaGetUserProfile (some MemCache.empty) ctx script now username).result ∧
      (enkaGetUserProfile Option.none ctx script now username).gets = 0 ∧
      (enkaGetUserProfile Option.none ctx script now username).sets = 0 ∧
      (enkaGetUserProfile Option.none ctx script now username).netCalls =
        (enkaGetUserProfile (some MemCache.empty) ctx script now username).netCalls) := by
  refine ⟨?_, ?_, ?_, ?_, ?_⟩
  · intro mc script now uid p hv hmiss hok
    simp [genshinGetProfile, hv, hmiss, hok]
  · intro ttl h1 h2
    apply wrap64_eq_self
    · unfold int64Min nsPerSecond
      omega
    · unfold int64Max nsPerSecond
      omega
  · intro mc script now username owner hu hmiss hok
    simp [enkaGetUserProfile, hu, hmiss, hok]
  · intro ctx script now uid
    by_cases hv : IsValidUID uid
    · rcases hres : (genshinFetchProfileWithRetry ctx script now).result with p | e <;>
        simp [genshinGetProfile, hv, hres, MemCache.get, MemCache.empty]
    · simp [genshinGetProfile, hv]
  · intro ctx script now username
    by_cases hu : username = ""
    · simp [enkaGetUserProfile, hu]
    · rcases hres : (FetchWithRetry ctx script now (T := Owner)).result with o | e <;>
        simp [enkaGetUserProfile, hu, hres, MemCache.get, MemCache.empty]

/-- Witness for C9 at a concrete successful fetch. -/
theorem c9_theorem_witness :
    genshinGetProfile (some MemCache.empty) Ctx.none
        ([.success ⟨200, "", some ⟨60, 5⟩⟩] : List (DoResult Profile)) 0 "618285856" =
      ⟨.ok ⟨60, 5⟩,
        some (MemCache.empty.set (genshinProfileKey "618285856") (.genshinProfilePtr ⟨60, 5⟩)
          (wrap64 ((60 : Int) * nsPerSecond))
          (genshinFetchProfileWithRetry Ctx.none
            ([.success ⟨200, "", some ⟨60, 5⟩⟩] : List (DoResult Profile)) 0).finish),
        1, 1,
        (genshinFetchProfileWithRetry Ctx.none
          ([.success ⟨200, "", some ⟨60, 5⟩⟩] : List (DoResult Profile)) 0).attempts⟩ ∧
    wrap64 ((60 : Int) * nsPerSecond) = 60 * nsPerSecond := by
  exact ⟨c9_theorem.1 MemCache.empty [.success ⟨200, "", some ⟨60, 5⟩⟩] 0 "618285856" ⟨60, 5⟩
      (by decide) (by decide) (by decide),
    c9_theorem.2.1 60 (by decide) (by decide)⟩

/-! ## C10 — the cache is written only on success -/

/-- C10: for every modelled resource method and every error outcome,
`Cache.Set` is never invoked and the cache contents are unchanged. -/
theorem c10_theorem :
    (∀ (cache : Option MemCache) (ctx : Ctx) (script : List (DoResult Profile)) (now : Int)
      (uid : String) (e : FetchError),
      (genshinGetProfile cache ctx script now uid).result = .error e →
      (genshinGetProfile cache ctx script now uid).sets = 0 ∧
      (genshinGetProfile cache ctx script now uid).cache = cache) ∧
    (∀ (cache : Option MemCache) (ctx : Ctx) (script : List (DoResult ZProfile)) (now : Int)
      (uid : String) (e : FetchError),
      (zzzGetProfile cache ctx script now uid).result = .error e →
      (zzzGetProfile cache ctx script now uid).sets = 0 ∧
      (zzzGetProfile cache ctx script now uid).cache = cache) ∧
    (∀ (cache : Option MemCache) (ctx : Ctx) (script : List (DoResult Owner)) (now : Int)
      (username : String) (e : FetchError),
      (enkaGetUserProfile cache ctx script now username).result = .error e →
      (enkaGetUserProfile cache ctx script now username).sets = 0 ∧
      (enkaGetUserProfile cache ctx script now username).cache = cache) ∧
    (∀ (cache : Option MemCache) (ctx : Ctx) (script : List (DoResult Hoyos)) (now : Int)
      (username : String) (e : FetchError),
      (enkaGetUserProfileHoyos cache ctx script now username).result = .error e →
      (enkaGetUserProfileHoyos cache ctx script now username).sets = 0 ∧
      (enkaGetUserProfileHoyos cache ctx script now username).cache = cache) ∧
    (∀ (cache : Option MemCache) (ctx : Ctx) (script : List (DoResult Hoyo)) (now : Int)
      (username hoyoHash : String) (e : FetchError),
      (enkaGetUserProfileHoyo cache ctx script now username hoyoHash).result = .error e →
      (enkaGetUserProfileHoyo cache ctx script now username hoyoHash).sets = 0 ∧
      (enkaGetUserProfileHoyo cache ctx script now username hoyoHash).cache = cache) ∧
    (∀ (cache : Option MemCache) (ctx : Ctx) (script : List (DoResult AvatarBuildsMap))
      (now : Int) (username hoyoHash : String) (e : FetchError),
      (enkaGetUserProfileHoyoBuilds cache ctx script now username hoyoHash).result = .error e →
      (enkaGetUserProfileHoyoBuilds cache ctx script now username hoyoHash).sets = 0 ∧
      (enkaGetUserProfileHoyoBuilds cache ctx script now username hoyoHash).cache = cache) := by
  refine ⟨?_, ?_, ?_, ?_, ?_, ?_⟩
  · intro cache ctx script now uid e h
    by_cases hv : IsValidUID uid
    · rcases cache with - | mc
      · rcases hres : (genshinFetchProfileWithRetry ctx script now).result with p | e2 <;>
          simp_all [genshinGetProfile, hv]
      · rcases hget : mc.get (genshinProfileKey uid) now with - | v
        · rcases hres : (genshinFetchProfileWithRetry ctx script now).result with p | e2 <;>
            simp_all [genshinGetProfile, hv]
        · rcases hres : (genshinFetchProfileWithRetry ctx script now).result with p | e2 <;>
            rcases v with p3 | p3 | p3 | p3 | p3 | p3 | p3 | p3 <;>
            simp_all [genshinGetProfile, hv]
    · simp_all [genshinGetProfile, hv]
  · intro cache ctx script now uid e h
    by_cases hv : zzzIsValidUID uid
    · rcases cache with - | mc
      · rcases hres : (FetchWithRetry ctx script now (T := ZProfile)).result with p | e2 <;>
          simp_all [zzzGetProfile, hv]
      · rcases hget : mc.get (zzzProfileKey uid) now with - | v
        · rcases hres : (FetchWithRetry ctx script now (T := ZProfile)).result with p | e2 <;>
            simp_all [zzzGetProfile, hv]
        · rcases hres : (FetchWithRetry ctx script now (T := ZProfile)).result with p | e2 <;>
            rcases v with p3 | p3 | p3 | p3 | p3 | p3 | p3 | p3 <;>
            simp_all [zzzGetProfile, hv]
    · simp_all [zzzGetProfile, hv]
  · intro cache ctx script now username e h
    by_cases hu : username = ""
    · simp_all [enkaGetUserProfile, hu]
    · rcases cache with - | mc
      · rcases hres : (FetchWithRetry ctx script now (T := Owner)).result with p | e2 <;>
          simp_all [enkaGetUserProfile, hu]
      · rcases hget : mc.get (userProfileKey username) now with - | v
        · rcases hres : (FetchWithRetry ctx script now (T := Owner)).result with p | e2 <;>
            simp_all [enkaGetUserProfile, hu]
        · rcases hres : (FetchWithRetry ctx script now (T := Owner)).result with p | e2 <;>
            rcases v with p3 | p3 | p3 | p3 | p3 | p3 | p3 | p3 <;>
            simp_all [enkaGetUserProfile, hu]
  · intro cache ctx script now username e h
    by_cases hu : username = ""
    · simp_all [enkaGetUserProfileHoyos, hu]
    · rcases cache with - | mc
      · rcases hres : (FetchWithRetry ctx script now (T := Hoyos)).result with p | e2 <;>
          simp_all [enkaGetUserProfileHoyos, hu]
      · rcases hget : mc.get (userHoyosKey username) now with - | v
        · rcases hres : (FetchWithRetry ctx script now (T := Hoyos)).result with p | e2 <;>
            simp_all [enkaGetUserProfileHoyos, hu]
        · rcases hres : (FetchWithRetry ctx script now (T := Hoyos)).result with p | e2 <;>
            rcases v with p3 | p3 | p3 | p3 | p3 | p3 | p3 | p3 <;>
            simp_all [enkaGetUserProfileHoyos, hu]
  · intro cache ctx script now username hoyoHash e h
    by_cases hu : username = ""
    · simp_all [enkaGetUserProfileHoyo, hu]
    · by_cases hh : hoyoHash = ""
      · simp_all [enkaGetUserProfileHoyo, hu, hh]
      · rcases cache with - | mc
        · rcases hres : (FetchWithRetry ctx script now (T := Hoyo)).result with p | e2 <;>
            simp_all [enkaGetUserProfileHoyo, hu, hh]
        · rcases hget : mc.get (userHoyoKey username hoyoHash) now with - | v
          · rcases hres : (FetchWithRetry ctx script now (T := Hoyo)).result with p | e2 <;>
              simp_all [enkaGetUserProfileHoyo, hu, hh]
          · rcases hres : (FetchWithRetry ctx script now (T := Hoyo)).result with p | e2 <;>
              rcases v with p3 | p3 | p3 | p3 | p3 | p3 | p3 | p3 <;>
              simp_all [enkaGetUserProfileHoyo, hu, hh]
  · intro cache ctx script now username hoyoHash e h
    by_cases hu : username = ""
    · simp_all [enkaGetUserProfileHoyoBuilds, hu]
    · by_cases hh : hoyoHash = ""
      · simp_all [enkaGetUserProfileHoyoBuilds, hu, hh]
      · rcases cache with - | mc
        · rcases hres : (FetchWithRetry ctx script now (T := AvatarBuildsMap)).result with p | e2 <;>
            simp_all [enkaGetUserProfileHoyoBuilds, hu, hh]
        · rcases hget : mc.get (userBuildsKey username hoyoHash) now with - | v
          · rcases hres : (FetchWithRetry ctx script now (T := AvatarBuildsMap)).result with
              p | e2 <;> simp_all [enkaGetUserProfileHoyoBuilds, hu, hh]
          · rcases hres : (FetchWithRetry ctx script now (T := AvatarBuildsMap)).result with
              p | e2 <;> rcases v with p3 | p3 | p3 | p3 | p3 | p3 | p3 | p3 <;>
              simp_all [enkaGetUserProfileHoyoBuilds, hu, hh]

/-- Witness for C10 at a concrete failing call. -/
theorem c10_theorem_witness :
    (genshinGetProfile (some MemCache.empty) Ctx.none
        ([.success ⟨404, "", Option.none⟩] : List (DoResult Profile)) 0 "618285856").sets = 0 ∧
    (genshinGetProfile (some MemCache.empty) Ctx.none
        ([.success ⟨404, "", Option.none⟩] : List (DoResult Profile)) 0 "618285856").cache =
      some MemCache.empty := by
  exact c10_theorem.1 (some MemCache.empty) Ctx.none [.success ⟨404, "", Option.none⟩] 0
    "618285856" .playerNotFound (by decide)

end EnkaNet
